import Mathlib

/-!
Verification of the GemmaVoice speech backend (FastAPI, Python) against its
natural-language specification.  The relevant Python functions are shallowly
embedded as executable Lean definitions:

* `app/services/openaudio.py`   — TTS adapter (`_media_type_for_format`,
  `synthesize_stream`'s retry iterator);
* `app/services/llm.py`         — LLM adapter (`startup`, `generate`);
* `app/services/whisper.py`     — STT adapter (remote-path normalisation);
* `app/api/v1/generation.py`    — `_apply_chat_template`;
* `app/api/v1/conversation.py`  — `dialogue` endpoint and its NDJSON
  streaming generator `dialogue_stream`;
* `app/api/v1/speech.py`        — `text_to_speech_ws` streaming branch;
* `app/api/v1/health.py`        — `health_check`, `liveness_check`.

Bytes are modelled as `Nat` (with explicit `< 256` bounds where base64
round-tripping matters), Python `bytes` values as `List Nat`, strings as
`String` or `List Char`, and dict-shaped JSON payloads as structures with
`Option` fields (`none` = key absent or `null`).  Async side effects are
made explicit: HTTP attempts are a transport oracle `Nat → TransportResult`,
retry sleeps are recorded in a `backoffs` list, and downstream service
invocations of the dialogue endpoint are recorded in a call trace.
-/

namespace GemmaVoice

/-! ## `_media_type_for_format` (app/services/openaudio.py lines 26-34) -/

/-- ASCII lower-casing of one character, as Python's `str.lower` acts on
the ASCII range (the dictionary keys compared against are all ASCII). -/
def lowerChar (c : Char) : Char :=
  if 65 ≤ c.toNat ∧ c.toNat ≤ 90 then Char.ofNat (c.toNat + 32) else c

/-- ASCII lower-casing of a string. -/
def lowerAscii (s : String) : String := ⟨s.data.map lowerChar⟩

/-- Embedding of `_media_type_for_format`: dictionary lookup on the
lower-cased format with default `"application/octet-stream"`. -/
def mediaTypeForFormat (responseFormat : String) : String :=
  let f := lowerAscii responseFormat
  if f = "pcm" then "audio/pcm"
  else if f = "wav" then "audio/wav"
  else if f = "mp3" then "audio/mpeg"
  else if f = "ogg" then "audio/ogg"
  else if f = "flac" then "audio/flac"
  else "application/octet-stream"

/-! ## Health endpoints (app/api/v1/health.py) -/

inductive HealthStatus where
  | healthy
  | degraded
  | unhealthy
deriving DecidableEq, Fintype, Repr

/-- Observable condition of the LLM service as probed by `health_check`:
missing from app state, model not loaded, loaded with the one-token test
generation passing, or loaded with the test failing. -/
inductive LLMProbe where
  | noService
  | noModel
  | testOk
  | testFail
deriving DecidableEq, Fintype, Repr

/-- Observable condition of the Whisper / OpenAudio services as probed by
`health_check`: missing from app state, present but not ready, or ready. -/
inductive SvcProbe where
  | noService
  | notReady
  | ready
deriving DecidableEq, Fintype, Repr

/-- LLM component status computed by `health_check` (lines 50-94).  Note the
`llm_service.model` property raises when no model is loaded; that exception
is caught by the surrounding `try` and also yields `unhealthy`. -/
def llmComponentStatus : LLMProbe → HealthStatus
  | .noService => .unhealthy
  | .noModel => .unhealthy
  | .testOk => .healthy
  | .testFail => .degraded

/-- STT component status computed by `health_check` (lines 96-126). -/
def sttComponentStatus : SvcProbe → HealthStatus
  | .noService => .unhealthy
  | .notReady => .unhealthy
  | .ready => .healthy

/-- TTS component status computed by `health_check` (lines 128-155). -/
def ttsComponentStatus : SvcProbe → HealthStatus
  | .noService => .unhealthy
  | .notReady => .unhealthy
  | .ready => .healthy

/-- Aggregation at lines 157-164: `healthy` if all component statuses are
healthy, else `unhealthy` if any is unhealthy, else `degraded`. -/
def aggregateStatus (statuses : List HealthStatus) : HealthStatus :=
  if statuses.all (· = .healthy) then .healthy
  else if statuses.any (· = .unhealthy) then .unhealthy
  else .degraded

/-- The `/health` endpoint's overall status for given component probes. -/
def healthCheckStatus (l : LLMProbe) (s t : SvcProbe) : HealthStatus :=
  aggregateStatus [llmComponentStatus l, sttComponentStatus s, ttsComponentStatus t]

/-- The `/health/live` endpoint (lines 314-320): constant response with no
dependence on any backend state. -/
def livenessCheck : List (String × String) := [("status", "alive")]

/-! ## Exception hierarchy (app/utils/exceptions.py) -/

/-- A JSON-serialisable value stored in an error's `details` dict. -/
inductive DetailVal where
  | str (s : String)
  | num (n : Nat)
deriving DecidableEq, Repr

/-- A Python exception observed as a cause: its type name and `str(exc)`. -/
structure ExcInfo where
  typeName : String
  message : String
deriving DecidableEq, Repr

/-- Embedding of `LLMServiceError` and its subclasses: the attributes set by
`__init__` (`message`, `error_code`, `details`) plus the `__cause__` link
that `GenerationError.__init__` assigns. -/
structure LLMServiceErr where
  message : String
  errorCode : String
  details : List (String × DetailVal)
  cause : Option ExcInfo
deriving DecidableEq, Repr

/-- `ModelNotLoadedError` (exceptions.py lines 37-49). -/
def modelNotLoadedError (message : String) (details : List (String × DetailVal)) :
    LLMServiceErr :=
  ⟨message, "MODEL_NOT_LOADED", details, none⟩

/-- `GenerationError` (exceptions.py lines 52-72) as constructed by
`LLMService.generate`: `details` is None at the call site, so the branch
`if cause and not details` populates it from the cause. -/
def generationError (message : String) (cause : ExcInfo) : LLMServiceErr :=
  ⟨message, "GENERATION_FAILED",
    [("cause", .str cause.message), ("cause_type", .str cause.typeName)],
    some cause⟩

/-- `GenerationTimeoutError` (exceptions.py lines 75-92).  The timeout is a
float in Python; it is modelled as a whole number of seconds. -/
def generationTimeoutError (timeoutSeconds : Nat) : LLMServiceErr :=
  ⟨s!"Generation request timed out after {timeoutSeconds} seconds",
    "GENERATION_TIMEOUT", [("timeout_seconds", .num timeoutSeconds)], none⟩

/-! ## LLM adapter (app/services/llm.py)

`LLMService.startup` runs its whole body while holding `self._load_lock`,
so concurrent invocations execute as some sequential interleaving of the
atomic body below; two concurrent first-use calls are exactly the
composition `llmStartup o₂ ∘ llmStartup o₁` in the order the lock is
granted.  `loadCount` counts invocations of `_download_and_load_model`
(one physical download-and-load). -/

/-- Mutable fields of `LLMService` relevant to lazy loading. -/
structure LLMState where
  llm : Option Nat
  isLoading : Bool
  loadCount : Nat
deriving DecidableEq, Repr

/-- Result of one physical `_download_and_load_model` operation. -/
inductive LoadOutcome where
  | success (model : Nat)
  | failure (exc : ExcInfo)
deriving DecidableEq, Repr

/-- Embedding of `LLMService.startup` (llm.py lines 39-58): under the lock,
return early if a model is loaded or a load is marked in flight, otherwise
perform one download-and-load; on failure `_is_loading` is reset and a
`ModelNotLoadedError` propagates (the state stays unloaded, retriable). -/
def llmStartup (outcome : LoadOutcome) (s : LLMState) :
    LLMState × Except LLMServiceErr Unit :=
  if s.llm.isSome then (s, .ok ())
  else if s.isLoading then (s, .ok ())
  else
    match outcome with
    | .success m =>
        ({ llm := some m, isLoading := false, loadCount := s.loadCount + 1 }, .ok ())
    | .failure e =>
        ({ llm := none, isLoading := false, loadCount := s.loadCount + 1 },
          .error (modelNotLoadedError s!"Failed to download model: {e.message}" []))

/-- The lazy-load prelude of `LLMService.generate` / `generate_stream`
(llm.py lines 163-165, 208-210): `if not self.is_ready: await self.startup()`. -/
def llmEnsureLoaded (outcome : LoadOutcome) (s : LLMState) :
    LLMState × Except LLMServiceErr Unit :=
  if s.llm.isSome then (s, .ok ()) else llmStartup outcome s

/-- Outcome of the worker-thread inference call
`asyncio.wait_for(asyncio.to_thread(self._llm, prompt, **kwargs), timeout)`. -/
inductive InferOutcome (R : Type) where
  | completed (result : R)
  | timedOut
  | raised (exc : ExcInfo)

/-- Embedding of the body of `LLMService.generate` after the lazy-load
prelude (llm.py lines 167-187): the effective timeout is the caller-supplied
`timeout` kwarg, else `settings.llm_request_timeout`, else 120; a timeout
becomes `GenerationTimeoutError`, any other failure is wrapped in a
`GenerationError` whose cause is the original exception. -/
def llmGenerate {R : Type} (outcome : InferOutcome R)
    (timeoutArg settingsTimeout : Option Nat) : Except LLMServiceErr R :=
  let timeout := timeoutArg.getD (settingsTimeout.getD 120)
  match outcome with
  | .completed r => .ok r
  | .timedOut => .error (generationTimeoutError timeout)
  | .raised e => .error (generationError s!"Text generation failed: {e.message}" e)

/-! ## STT adapter, remote path (app/services/whisper.py)

Times (`start`, `end`, `duration`) are floats in the payload; they are
carried as an arbitrary type `T` with an explicit default `zero`, since no
claim depends on their arithmetic. -/

/-- One dict of `payload["segments"]`; `none` = key absent. -/
structure RemoteSegmentPayload (T : Type) where
  id : Option Nat
  start : Option T
  stop : Option T
  text : Option String

/-- The normalised remote response payload (`response.model_dump()`). -/
structure RemoteTranscriptionPayload (T : Type) where
  text : Option String
  segments : List (RemoteSegmentPayload T)
  language : Option String
  duration : Option T

/-- `WhisperTranscriptionSegment` (whisper.py lines 30-37) as populated by
the remote path: every field defaulted, so none is optional any more. -/
structure WhisperSegment (T : Type) where
  id : Nat
  start : T
  stop : T
  text : String

/-- `WhisperTranscription` (whisper.py lines 40-52). -/
structure WhisperTranscriptionResult (T : Type) where
  text : String
  language : Option String
  segments : List (WhisperSegment T)

/-- `WhisperTranscription.from_segments` (whisper.py lines 48-52). -/
def whisperFromSegments {T : Type} (segments : List (WhisperSegment T))
    (language : Option String) : WhisperTranscriptionResult T :=
  ⟨String.join (segments.map (·.text)), language, segments⟩

/-- Embedding of the response normalisation in `WhisperService.transcribe`'s
remote path (whisper.py lines 156-185): `raw_text = payload.get("text", "")`;
segments are built from `payload["segments"]` with per-field defaults (id
defaults to the enumeration index); if no segments but raw text is truthy, a
single synthetic segment is created; `text` prefers the raw text and falls
back to concatenating the segment texts. -/
def normalizeRemoteResponse {T : Type} (zero : T)
    (p : RemoteTranscriptionPayload T) : WhisperTranscriptionResult T :=
  let rawText := p.text.getD ""
  let segments := p.segments.enum.map (fun x =>
    WhisperSegment.mk (x.2.id.getD x.1) (x.2.start.getD zero) (x.2.stop.getD zero)
      (x.2.text.getD ""))
  let segments := if segments.isEmpty ∧ rawText ≠ "" then
      [WhisperSegment.mk 0 zero (p.duration.getD zero) rawText]
    else segments
  let text := if rawText ≠ "" then rawText else String.join (segments.map (·.text))
  ⟨text, p.language, segments⟩

/-! ## `_apply_chat_template` (app/api/v1/generation.py lines 44-64)

Prompts are modelled as `List Char`; Python's substring test `"…" in prompt`
is list infix (`<:+:`), and occurrence counting is defined below for the
marker-count part of the spec. -/

/-- The template-marker substring checked at generation.py line 54. -/
def startOfTurnMarker : List Char := "<start_of_turn>".toList

/-- The user-turn marker whose occurrence count the spec constrains. -/
def userTurnMarker : List Char := "<start_of_turn>user".toList

/-- The system-turn marker. -/
def systemTurnMarker : List Char := "<start_of_turn>system".toList

/-- Opening of the system part: `"<start_of_turn>system\n"`. -/
def sysOpenSeg : List Char := "<start_of_turn>system\n".toList

/-- Opening of the user part: `"<start_of_turn>user\n"`. -/
def userOpenSeg : List Char := "<start_of_turn>user\n".toList

/-- Turn terminator `"<end_of_turn>\n"`. -/
def endTurnSeg : List Char := "<end_of_turn>\n".toList

/-- Final part `"<start_of_turn>model\n"`. -/
def modelOpenSeg : List Char := "<start_of_turn>model\n".toList

/-- Embedding of `_apply_chat_template`: detect a pre-templated prompt via
the marker substring, otherwise wrap with optional system turn, user turn
and model opening.  The system part is guarded by Python truthiness
(`if system_prompt:` at generation.py line 58), so a supplied empty system
prompt adds no system turn. -/
def applyChatTemplate (prompt : List Char) (systemPrompt : Option (List Char)) :
    List Char × Bool :=
  if startOfTurnMarker <:+: prompt then (prompt, false)
  else
    let sysPart := match systemPrompt with
      | some sp => if sp = [] then [] else sysOpenSeg ++ sp ++ endTurnSeg
      | none => []
    (sysPart ++ userOpenSeg ++ prompt ++ endTurnSeg ++ modelOpenSeg, true)

/-- Number of (possibly overlapping) occurrences of `pat` as a contiguous
substring of `s`, counted by starting position. -/
def occCount (pat : List Char) : List Char → Nat
  | [] => 0
  | c :: rest => (if pat <+: c :: rest then 1 else 0) + occCount pat rest

/-! ## Base64 (used by the event emission layers)

Reference RFC 4648 encoder matching Python's `base64.b64encode` on byte
strings (bytes modelled as `Nat < 256`), plus a decoder used to state the
round-trip/decodability properties. -/

/-- Value of the base64 alphabet at index `n < 64`. -/
def sextetToChar (n : Nat) : Char :=
  if n < 26 then Char.ofNat (65 + n)
  else if n < 52 then Char.ofNat (97 + (n - 26))
  else if n < 62 then Char.ofNat (48 + (n - 52))
  else if n = 62 then '+' else '/'

/-- Inverse alphabet lookup; `none` for characters outside the alphabet
(including the padding character). -/
def charToSextet (c : Char) : Option Nat :=
  if 65 ≤ c.toNat ∧ c.toNat ≤ 90 then some (c.toNat - 65)
  else if 97 ≤ c.toNat ∧ c.toNat ≤ 122 then some (c.toNat - 97 + 26)
  else if 48 ≤ c.toNat ∧ c.toNat ≤ 57 then some (c.toNat - 48 + 52)
  else if c = '+' then some 62
  else if c = '/' then some 63
  else none

/-- Base64 encoding of a byte string, three bytes per four characters with
`'='` padding. -/
def b64encode : List Nat → List Char
  | [] => []
  | [b1] => [sextetToChar (b1 / 4), sextetToChar (b1 % 4 * 16), '=', '=']
  | [b1, b2] => [sextetToChar (b1 / 4), sextetToChar (b1 % 4 * 16 + b2 / 16),
      sextetToChar (b2 % 16 * 4), '=']
  | b1 :: b2 :: b3 :: rest =>
      sextetToChar (b1 / 4) :: sextetToChar (b1 % 4 * 16 + b2 / 16) ::
      sextetToChar (b2 % 16 * 4 + b3 / 64) :: sextetToChar (b3 % 64) :: b64encode rest

/-- Base64 decoding; padding is accepted only in a final group. -/
def b64decode : List Char → Option (List Nat)
  | [] => some []
  | c1 :: c2 :: c3 :: c4 :: rest =>
      if c3 = '=' then
        if c4 = '=' ∧ rest = [] then
          (charToSextet c1).bind fun s1 =>
          (charToSextet c2).bind fun s2 =>
          if s2 % 16 = 0 then some [s1 * 4 + s2 / 16] else none
        else none
      else if c4 = '=' then
        if rest = [] then
          (charToSextet c1).bind fun s1 =>
          (charToSextet c2).bind fun s2 =>
          (charToSextet c3).bind fun s3 =>
          if s3 % 4 = 0 then some [s1 * 4 + s2 / 16, s2 % 16 * 16 + s3 / 4] else none
        else none
      else
        (charToSextet c1).bind fun s1 =>
        (charToSextet c2).bind fun s2 =>
        (charToSextet c3).bind fun s3 =>
        (charToSextet c4).bind fun s4 =>
        (b64decode rest).map fun tl =>
          [s1 * 4 + s2 / 16, s2 % 16 * 16 + s3 / 4, s3 % 4 * 64 + s4] ++ tl
  | _ => none

/-! ## `synthesize_stream`'s retry iterator (app/services/openaudio.py 275-324)

One HTTP attempt either fails at transport level (`httpx.HTTPError`) or
produces a response with a status code and body chunks; the transport is an
oracle indexed by the attempt number.  The loop retries only transport
errors (`except httpx.HTTPError`), sleeping `min(2 ** attempt, 10)` between
attempts, up to `attempt > retries`; a status `>= 400` raises a
`RuntimeError`, which is not an `httpx.HTTPError` and therefore propagates
immediately without consuming the retry budget. -/

/-- Outcome of one HTTP streaming attempt at transport level. -/
inductive TransportResult where
  | netError
  | response (status : Nat) (chunks : List (List Nat))
deriving DecidableEq, Repr

/-- Why the iterator terminated with an exception. -/
inductive StreamFailure where
  | httpStatus (status : Nat)
  | exhausted
deriving DecidableEq, Repr

/-- Observable behaviour of one full run of the iterator: the byte chunks it
yielded, the total number of HTTP attempts issued, the backoff sleeps
performed between attempts, and whether it raised at the end. -/
structure StreamRun where
  emitted : List (List Nat)
  attempts : Nat
  backoffs : List Nat
  failed : Option StreamFailure
deriving DecidableEq, Repr

/-- The retry loop starting at attempt number `attempt`, with `fuel`
bounding the remaining loop iterations.  The loop body runs at most
`retries + 1` times — a transport error at `attempt > retries` re-raises —
so starting from `runStream` (fuel `retries + 1`, attempt 1) the `fuel = 0`
arm is never reached. -/
def runStreamFrom (transport : Nat → TransportResult) (retries : Nat) :
    Nat → Nat → StreamRun
  | attempt, 0 => ⟨[], attempt, [], some .exhausted⟩
  | attempt, fuel + 1 =>
    match transport attempt with
    | .response status chunks =>
        if 400 ≤ status then ⟨[], attempt, [], some (.httpStatus status)⟩
        else ⟨chunks.filter (· ≠ []), attempt, [], none⟩
    | .netError =>
        if retries < attempt then ⟨[], attempt, [], some .exhausted⟩
        else
          let r := runStreamFrom transport retries (attempt + 1) fuel
          ⟨r.emitted, r.attempts, min (2 ^ attempt) 10 :: r.backoffs, r.failed⟩

/-- One full run of the iterator returned by `synthesize_stream`, starting
at attempt 1 (`attempt += 1` precedes the first request). -/
def runStream (transport : Nat → TransportResult) (retries : Nat) : StreamRun :=
  runStreamFrom transport retries 1 (retries + 1)

/-- Metadata of an `OpenAudioSynthesisStream` (openaudio.py lines 326-334):
the payload always carries `format` (`response_format` or the configured
default), so `payload.get("format", default)` is the chosen format. -/
structure SynthesisStreamMeta where
  responseFormat : String
  sampleRate : Nat
  referenceId : Option String
  mediaType : String
deriving DecidableEq, Repr

/-- `synthesize_stream`'s construction of the stream metadata from the
request parameters and settings defaults. -/
def synthesizeStreamMeta (responseFormat : Option String) (sampleRate : Option Nat)
    (referenceId : Option String) (defaultFormat : String)
    (defaultReferenceId : Option String) (defaultSampleRate : Nat) :
    SynthesisStreamMeta :=
  let fmt := responseFormat.getD defaultFormat
  ⟨fmt, sampleRate.getD defaultSampleRate,
    match referenceId with
    | some r => some r
    | none => defaultReferenceId,
    mediaTypeForFormat fmt⟩

/-! ## NDJSON dialogue stream (app/api/v1/conversation.py lines 199-221)

`dialogue_stream` yields one JSON line per event: `metadata`, `transcript`,
`assistant_text`, then one `audio_chunk` per non-empty chunk produced by the
synthesis stream's iterator (empty chunks are skipped by
`if not chunk: continue`), then `done`.  If the iterator raises, the
exception propagates out of the generator: events already yielded stand, and
no further event — in particular no `done` — is emitted. -/

inductive DialogueEvent where
  | metadata (meta : SynthesisStreamMeta)
  | transcript (text : String) (language : Option String) (segmentTexts : List String)
  | assistantText (text : String)
  | audioChunk (audioBase64 : List Char)
  | done
deriving DecidableEq, Repr

/-- The wire `event` kind of an NDJSON event. -/
def eventKind : DialogueEvent → String
  | .metadata _ => "metadata"
  | .transcript _ _ _ => "transcript"
  | .assistantText _ => "assistant_text"
  | .audioChunk _ => "audio_chunk"
  | .done => "done"

/-- Events emitted by one run of `dialogue_stream`, given the metadata, the
transcript model, the assistant reply text and the observed run of the
synthesis stream's iterator. -/
def dialogueStreamEvents (meta : SynthesisStreamMeta) (transcriptText : String)
    (language : Option String) (segmentTexts : List String)
    (responseText : String) (r : StreamRun) : List DialogueEvent :=
  [DialogueEvent.metadata meta,
   DialogueEvent.transcript transcriptText language segmentTexts,
   DialogueEvent.assistantText responseText]
  ++ (r.emitted.filter (· ≠ [])).map (fun c => DialogueEvent.audioChunk (b64encode c))
  ++ (match r.failed with
      | none => [DialogueEvent.done]
      | some _ => [])

/-! ## `text_to_speech_ws` streaming branch (app/api/v1/speech.py 709-748)

After `metadata`, non-empty chunks are forwarded base64-encoded as
`audio_chunk` messages (empty ones skipped by `if not chunk: continue`),
then `done`; a `RuntimeError` from the iterator is caught and reported as an
`error` message instead. -/

inductive TtsWsMessage where
  | metadata (meta : SynthesisStreamMeta)
  | audioChunk (audioBase64 : List Char)
  | done
  | error (detail : String)
deriving DecidableEq, Repr

/-- Messages sent for one streamed synthesis request on the TTS WebSocket. -/
def ttsWsStreamMessages (meta : SynthesisStreamMeta) (r : StreamRun) :
    List TtsWsMessage :=
  [TtsWsMessage.metadata meta]
  ++ (r.emitted.filter (· ≠ [])).map (fun c => TtsWsMessage.audioChunk (b64encode c))
  ++ (match r.failed with
      | none => [TtsWsMessage.done]
      | some _ => [TtsWsMessage.error "Failed to synthesise audio with OpenAudio."])

/-! ## The `dialogue` endpoint (app/api/v1/conversation.py lines 149-232)

The handler reads the uploaded file, rejects empty audio with HTTP 400,
parses the two JSON override form fields, runs
`conversation_service.run_dialogue`, and renders either a blocking JSON
response or the NDJSON stream.  `_parse_json_field` and `run_dialogue` are
externally-observable steps whose outcomes are supplied as oracles; the
second component of the result records, in order, which of these downstream
steps were actually invoked. -/

inductive DownstreamCall where
  | parseGenerationConfig
  | parseSynthesisConfig
  | runDialogue
deriving DecidableEq, Repr

/-- Outcome of `_parse_json_field` on one form field (lines 102-113). -/
inductive ParseOutcome where
  | ok
  | invalidJson
  | notObject
deriving DecidableEq, Repr

/-- A raised `HTTPException`: status code and detail string. -/
structure HttpError where
  status : Nat
  detail : String
deriving DecidableEq, Repr

/-- Transcript model content: text, language, segment texts. -/
structure TranscriptModel where
  text : String
  language : Option String
  segmentTexts : List String
deriving DecidableEq, Repr

/-- Outcome of `conversation_service.run_dialogue` (`ConversationService` is
not part of the sources under verification, so its result is an oracle):
either a blocking `DialogueResult`, a `DialogueStreamResult`, or one of the
exception kinds distinguished by the handler's `except` clauses. -/
inductive RunDialogueOutcome where
  | blocking (transcript : TranscriptModel) (responseText : String)
      (audio : List Nat) (responseFormat : String) (mediaType : String)
      (sampleRate : Nat) (referenceId : Option String)
  | stream (transcript : TranscriptModel) (responseText : String)
      (meta : SynthesisStreamMeta) (run : StreamRun)
  | valueError (msg : String)
  | runtimeError (msg : String)
  | otherError (msg : String)

/-- The endpoint's successful response payloads. -/
inductive DialogueResponse where
  | blocking (transcript : TranscriptModel) (responseText : String)
      (audioBase64 : List Char) (responseFormat : String) (mediaType : String)
      (sampleRate : Nat) (referenceId : Option String)
  | streaming (events : List DialogueEvent)

/-- Embedding of the `dialogue` handler.  `audio` is the content of the
uploaded file (`await file.read()`); the emptiness check at lines 171-173
precedes the `_parse_json_field` calls (175-176) and `run_dialogue` (179). -/
def dialogueEndpoint (audio : List Nat) (genParse synthParse : ParseOutcome)
    (dlg : RunDialogueOutcome) :
    Except HttpError DialogueResponse × List DownstreamCall :=
  if audio = [] then (.error ⟨400, "Uploaded audio file was empty"⟩, [])
  else
    match genParse with
    | .invalidJson =>
        (.error ⟨400, "Invalid JSON for 'generation_config'"⟩, [.parseGenerationConfig])
    | .notObject =>
        (.error ⟨400, "Field 'generation_config' must be a JSON object"⟩,
          [.parseGenerationConfig])
    | .ok =>
      match synthParse with
      | .invalidJson =>
          (.error ⟨400, "Invalid JSON for 'synthesis_config'"⟩,
            [.parseGenerationConfig, .parseSynthesisConfig])
      | .notObject =>
          (.error ⟨400, "Field 'synthesis_config' must be a JSON object"⟩,
            [.parseGenerationConfig, .parseSynthesisConfig])
      | .ok =>
        let trace := [DownstreamCall.parseGenerationConfig,
          DownstreamCall.parseSynthesisConfig, DownstreamCall.runDialogue]
        match dlg with
        | .valueError msg => (.error ⟨400, msg⟩, trace)
        | .runtimeError _ => (.error ⟨503, "Speech services are unavailable"⟩, trace)
        | .otherError _ => (.error ⟨500, "Failed to process dialogue request."⟩, trace)
        | .blocking tr txt audioBytes fmt mt sr rid =>
            (.ok (.blocking tr txt (b64encode audioBytes) fmt mt sr rid), trace)
        | .stream tr txt meta r =>
            (.ok (.streaming
              (dialogueStreamEvents meta tr.text tr.language tr.segmentTexts txt r)),
              trace)

/-! # Theorems -/

/-- C9: the media type attached to synthesis results is a total,
case-insensitive function of the response-format string: `pcm`, `wav`,
`mp3`, `ogg`, `flac` in any letter case map to their audio MIME types,
every other string maps to `application/octet-stream`, the result is never
empty, and a synthesis stream's `media_type` is exactly this function of its
chosen `response_format`. -/
theorem mediaType_total_and_case_insensitive :
    (∀ f g : String, lowerAscii f = lowerAscii g →
      mediaTypeForFormat f = mediaTypeForFormat g) ∧
    (∀ f : String, lowerAscii f = "pcm" → mediaTypeForFormat f = "audio/pcm") ∧
    (∀ f : String, lowerAscii f = "wav" → mediaTypeForFormat f = "audio/wav") ∧
    (∀ f : String, lowerAscii f = "mp3" → mediaTypeForFormat f = "audio/mpeg") ∧
    (∀ f : String, lowerAscii f = "ogg" → mediaTypeForFormat f = "audio/ogg") ∧
    (∀ f : String, lowerAscii f = "flac" → mediaTypeForFormat f = "audio/flac") ∧
    (∀ f : String, lowerAscii f ∉ (["pcm", "wav", "mp3", "ogg", "flac"] : List String) →
      mediaTypeForFormat f = "application/octet-stream") ∧
    (∀ f : String, mediaTypeForFormat f ≠ "") ∧
    (∀ rf sr rid df drid dsr,
      (synthesizeStreamMeta rf sr rid df drid dsr).mediaType =
        mediaTypeForFormat (synthesizeStreamMeta rf sr rid df drid dsr).responseFormat) := by
  refine ⟨?_, ?_, ?_, ?_, ?_, ?_, ?_, ?_, ?_⟩
  · intro f g h
    simp only [mediaTypeForFormat, h]
  · intro f h; simp [mediaTypeForFormat, h]
  · intro f h; simp [mediaTypeForFormat, h]
  · intro f h; simp [mediaTypeForFormat, h]
  · intro f h; simp [mediaTypeForFormat, h]
  · intro f h; simp [mediaTypeForFormat, h]
  · intro f h
    simp only [List.mem_cons, List.mem_singleton, not_or] at h
    obtain ⟨h1, h2, h3, h4, h5, -⟩ := h
    simp [mediaTypeForFormat, h1, h2, h3, h4, h5]
  · intro f
    simp only [mediaTypeForFormat]
    split
    · decide
    split
    · decide
    split
    · decide
    split
    · decide
    split
    · decide
    · decide
  · intro rf sr rid df drid dsr
    rfl

/-- Witness for C9 at concrete formats. -/
theorem mediaType_total_and_case_insensitive_witness :
    mediaTypeForFormat "PCM" = "audio/pcm" ∧
    mediaTypeForFormat "Flac" = "audio/flac" ∧
    mediaTypeForFormat "webm" = "application/octet-stream" := by
  refine ⟨?_, ?_, ?_⟩
  · exact mediaType_total_and_case_insensitive.2.1 "PCM" (by decide)
  · exact mediaType_total_and_case_insensitive.2.2.2.2.2.1 "Flac" (by decide)
  · exact mediaType_total_and_case_insensitive.2.2.2.2.2.2.1 "webm" (by decide)

/-- C8: the aggregate `/health` status is `healthy` exactly when every
component is healthy, `unhealthy` when at least one component is unhealthy,
`degraded` otherwise; the liveness probe is a constant alive response
independent of any backend state. -/
theorem health_aggregate_threeway :
    (∀ (l : LLMProbe) (s t : SvcProbe),
      healthCheckStatus l s t = .healthy ↔
        (llmComponentStatus l = .healthy ∧ sttComponentStatus s = .healthy ∧
          ttsComponentStatus t = .healthy)) ∧
    (∀ (l : LLMProbe) (s t : SvcProbe),
      (llmComponentStatus l = .unhealthy ∨ sttComponentStatus s = .unhealthy ∨
        ttsComponentStatus t = .unhealthy) →
      healthCheckStatus l s t = .unhealthy) ∧
    (∀ (l : LLMProbe) (s t : SvcProbe),
      ¬(llmComponentStatus l = .unhealthy ∨ sttComponentStatus s = .unhealthy ∨
          ttsComponentStatus t = .unhealthy) →
      ¬(llmComponentStatus l = .healthy ∧ sttComponentStatus s = .healthy ∧
          ttsComponentStatus t = .healthy) →
      healthCheckStatus l s t = .degraded) ∧
    livenessCheck = [("status", "alive")] := by
  refine ⟨?_, ?_, ?_, rfl⟩ <;> decide

/-- Witness for C8 at concrete probe states. -/
theorem health_aggregate_threeway_witness :
    healthCheckStatus .noService .ready .ready = .unhealthy ∧
    healthCheckStatus .testFail .ready .ready = .degraded ∧
    healthCheckStatus .testOk .ready .ready = .healthy := by
  refine ⟨?_, ?_, ?_⟩
  · exact health_aggregate_threeway.2.1 _ _ _ (Or.inl (by decide))
  · exact health_aggregate_threeway.2.2.1 _ _ _ (by decide) (by decide)
  · exact (health_aggregate_threeway.1 _ _ _).mpr (by decide)

/-- C3: the lock-serialised lazy-load path loads the model exactly once:
after a first successful `startup` from the unloaded state the load count is
1 and the model is set; any second `startup` (the other of two concurrent
first-use calls, once the lock is granted to it, or a later call from
`generate`'s lazy-load prelude) returns without loading and leaves the
state — in particular the loaded model instance — unchanged. -/
theorem llm_lazy_load_idempotent :
    (∀ (m : Nat) (o₂ : LoadOutcome),
      (llmStartup (.success m) ⟨none, false, 0⟩).1.loadCount = 1 ∧
      (llmStartup (.success m) ⟨none, false, 0⟩).1.llm = some m ∧
      llmStartup o₂ (llmStartup (.success m) ⟨none, false, 0⟩).1 =
        ((llmStartup (.success m) ⟨none, false, 0⟩).1, .ok ()) ∧
      llmEnsureLoaded o₂ (llmStartup (.success m) ⟨none, false, 0⟩).1 =
        ((llmStartup (.success m) ⟨none, false, 0⟩).1, .ok ())) ∧
    (∀ (o : LoadOutcome) (s : LLMState), s.llm.isSome →
      llmStartup o s = (s, .ok ())) := by
  constructor
  · intro m o₂
    refine ⟨rfl, rfl, ?_, ?_⟩ <;> simp [llmStartup, llmEnsureLoaded]
  · intro o s h
    simp [llmStartup, h]

/-- Witness for C3: a second startup call after a successful load is the
identity on the service state. -/
theorem llm_lazy_load_idempotent_witness :
    llmStartup (.failure ⟨"RuntimeError", "boom"⟩) ⟨some 7, false, 1⟩ =
      (⟨some 7, false, 1⟩, .ok ()) :=
  llm_lazy_load_idempotent.2 (.failure ⟨"RuntimeError", "boom"⟩) ⟨some 7, false, 1⟩ rfl

/-- C4: `LLMService.generate` fails with `GenerationTimeoutError` exactly
when the worker call times out against the effective wall-clock timeout
(caller-supplied, else configured, else 120 s), and wraps any other failure
of the inference call in a `GenerationError` that preserves the original
exception as its cause, both as `__cause__` and in the `details` dict. -/
theorem llm_generate_failure_modes (R : Type) (outcome : InferOutcome R)
    (tArg tSet : Option Nat) :
    (outcome = .timedOut →
      llmGenerate outcome tArg tSet =
        .error (generationTimeoutError (tArg.getD (tSet.getD 120)))) ∧
    (∀ e, outcome = .raised e →
      ∃ err, llmGenerate outcome tArg tSet = .error err ∧
        err.cause = some e ∧
        err.errorCode = "GENERATION_FAILED" ∧
        ("cause", DetailVal.str e.message) ∈ err.details ∧
        ("cause_type", DetailVal.str e.typeName) ∈ err.details) ∧
    (∀ r, outcome = .completed r → llmGenerate outcome tArg tSet = .ok r) := by
  refine ⟨?_, ?_, ?_⟩
  · rintro rfl
    rfl
  · rintro e rfl
    exact ⟨_, rfl, rfl, rfl, by simp [generationError], by simp [generationError]⟩
  · rintro r rfl
    rfl

/-- Witness for C4: a timed-out call with no overrides yields the
120-second `GenerationTimeoutError`, and a raised `ValueError` is wrapped
with its cause preserved. -/
theorem llm_generate_failure_modes_witness :
    llmGenerate (R := Nat) .timedOut none none =
      .error (generationTimeoutError 120) ∧
    ∃ err, llmGenerate (R := Nat) (.raised ⟨"ValueError", "bad input"⟩) none none =
        .error err ∧ err.cause = some ⟨"ValueError", "bad input"⟩ ∧
        err.errorCode = "GENERATION_FAILED" ∧
        ("cause", DetailVal.str "bad input") ∈ err.details ∧
        ("cause_type", DetailVal.str "ValueError") ∈ err.details :=
  ⟨(llm_generate_failure_modes Nat .timedOut none none).1 rfl,
    (llm_generate_failure_modes Nat (.raised ⟨"ValueError", "bad input"⟩) none none).2.1
      ⟨"ValueError", "bad input"⟩ rfl⟩

/-- C7: an empty uploaded audio file makes the dialogue endpoint fail with
HTTP 400 before anything else happens: the downstream-call trace is empty,
so neither override field is parsed and `run_dialogue` (hence no STT, LLM
or TTS adapter) is ever invoked. -/
theorem dialogue_empty_audio_rejected (audio : List Nat)
    (genParse synthParse : ParseOutcome) (dlg : RunDialogueOutcome)
    (h : audio = []) :
    dialogueEndpoint audio genParse synthParse dlg =
      (.error ⟨400, "Uploaded audio file was empty"⟩, []) := by
  subst h
  rfl

/-- Witness for C7 with every downstream oracle primed to succeed. -/
theorem dialogue_empty_audio_rejected_witness :
    dialogueEndpoint [] .ok .ok
        (.blocking ⟨"hi", some "en", ["hi"]⟩ "hello" [1, 2] "wav" "audio/wav" 44100 none) =
      (.error ⟨400, "Uploaded audio file was empty"⟩, []) :=
  dialogue_empty_audio_rejected [] .ok .ok
    (.blocking ⟨"hi", some "en", ["hi"]⟩ "hello" [1, 2] "wav" "audio/wav" 44100 none) rfl

/-- The texts of the segments normalised from a remote payload are the
payload's segment texts (with absent text defaulted to the empty string). -/
theorem remoteSegments_texts {T : Type} (zero : T) (l : List (RemoteSegmentPayload T)) :
    ((l.enum.map (fun x => WhisperSegment.mk (x.2.id.getD x.1) (x.2.start.getD zero)
        (x.2.stop.getD zero) (x.2.text.getD ""))).map (fun s => s.text)) =
      l.map (fun s => s.text.getD "") := by
  rw [List.map_map]
  have h1 : ((fun s : WhisperSegment T => s.text) ∘ fun x : Nat × RemoteSegmentPayload T =>
      WhisperSegment.mk (x.2.id.getD x.1) (x.2.start.getD zero) (x.2.stop.getD zero)
        (x.2.text.getD "")) =
      (fun s : RemoteSegmentPayload T => s.text.getD "") ∘ Prod.snd := rfl
  rw [h1, ← List.map_map, List.enum_map_snd]

/-- C6: on the remote STT path, the normalised transcription's `text` is the
payload's raw full-text field whenever that field is present and non-empty,
and otherwise the in-order concatenation of the payload's segment texts. -/
theorem whisper_remote_text_precedence {T : Type} (zero : T)
    (p : RemoteTranscriptionPayload T) :
    (p.text.getD "" ≠ "" →
      (normalizeRemoteResponse zero p).text = p.text.getD "") ∧
    (p.text.getD "" = "" →
      (normalizeRemoteResponse zero p).text =
        String.join (p.segments.map (fun s => s.text.getD ""))) := by
  constructor
  · intro h
    simp [normalizeRemoteResponse, h]
  · intro h
    simp only [normalizeRemoteResponse, h, ne_eq, not_true_eq_false, and_false,
      if_false]
    exact congrArg String.join (remoteSegments_texts zero p.segments)

/-- Witness for C6: raw text wins when non-empty; segment concatenation is
used when the raw text field is absent. -/
theorem whisper_remote_text_precedence_witness :
    (normalizeRemoteResponse (T := Int) 0
        ⟨some "raw", [⟨some 0, some 0, some 1, some "seg"⟩], some "en", none⟩).text =
      "raw" ∧
    (normalizeRemoteResponse (T := Int) 0
        ⟨none, [⟨some 0, some 0, some 1, some "ab"⟩, ⟨some 1, some 1, some 2, some "cd"⟩],
          some "en", none⟩).text = "abcd" := by
  constructor
  · exact (whisper_remote_text_precedence 0 _).1 (by decide)
  · have := (whisper_remote_text_precedence (T := Int) 0
      ⟨none, [⟨some 0, some 0, some 1, some "ab"⟩, ⟨some 1, some 1, some 2, some "cd"⟩],
        some "en", none⟩).2 (by decide)
    rw [this]
    decide

/-- Stepping lemma: a response outcome ends the retry loop at the current
attempt, failing immediately on a status of 400 or above. -/
theorem runStreamFrom_response (t : Nat → TransportResult) (retries attempt fuel st : Nat)
    (chs : List (List Nat)) (h : t attempt = .response st chs) :
    runStreamFrom t retries attempt (fuel + 1) =
      if 400 ≤ st then ⟨[], attempt, [], some (.httpStatus st)⟩
      else ⟨chs.filter (· ≠ []), attempt, [], none⟩ := by
  simp only [runStreamFrom, h]

/-- Stepping lemma: a transport error within the retry budget sleeps
`min (2 ^ attempt) 10` and re-runs the whole attempt. -/
theorem runStreamFrom_netError_retry (t : Nat → TransportResult)
    (retries attempt fuel : Nat) (h : t attempt = .netError) (hle : attempt ≤ retries) :
    runStreamFrom t retries attempt (fuel + 1) =
      ⟨(runStreamFrom t retries (attempt + 1) fuel).emitted,
        (runStreamFrom t retries (attempt + 1) fuel).attempts,
        min (2 ^ attempt) 10 :: (runStreamFrom t retries (attempt + 1) fuel).backoffs,
        (runStreamFrom t retries (attempt + 1) fuel).failed⟩ := by
  simp only [runStreamFrom, h]
  rw [if_neg (by omega)]

/-- C2 counterexample: the claim says every non-2xx status fails the attempt
immediately, but the iterator only treats statuses `>= 400` as failures: a
301 response on the first attempt is consumed as a successful stream,
refuting the claim at this concrete input. -/
theorem tts_stream_retry_policy_counterexample :
    ¬(∀ (t : Nat → TransportResult) (retries st : Nat) (chs : List (List Nat)),
        (st < 200 ∨ 300 ≤ st) → t 1 = .response st chs →
        (runStream t retries).failed ≠ none) := by
  intro h
  exact h (fun _ => .response 301 [[1]]) 0 301 [[1]] (Or.inr (by omega)) rfl rfl

/-- C2 (amended): for the stream iterator, a network-level transport error
retries the whole HTTP attempt with backoff `min (2 ^ attempt) 10` up to the
configured budget — a transport failing the first two connection attempts
and succeeding on the third yields its data with 3 total attempts and sleeps
of 2 s then 4 s — while a status of 400 or above (rather than every non-2xx
status) fails immediately on that attempt with no retry and no backoff. -/
theorem tts_stream_retry_policy :
    (∀ (t : Nat → TransportResult) (retries st : Nat) (chs : List (List Nat)),
      2 ≤ retries → t 1 = .netError → t 2 = .netError → t 3 = .response st chs →
      st < 400 →
      runStream t retries = ⟨chs.filter (· ≠ []), 3, [2, 4], none⟩) ∧
    (∀ (t : Nat → TransportResult) (retries st : Nat) (chs : List (List Nat)),
      400 ≤ st → t 1 = .response st chs →
      runStream t retries = ⟨[], 1, [], some (.httpStatus st)⟩) := by
  constructor
  · intro t retries st chs hr h1 h2 h3 hst
    obtain ⟨r, rfl⟩ : ∃ r, retries = r + 2 := ⟨retries - 2, by omega⟩
    have s3 : runStreamFrom t (r + 2) 3 (r + 1) = ⟨chs.filter (· ≠ []), 3, [], none⟩ := by
      rw [runStreamFrom_response t (r + 2) 3 r st chs h3, if_neg (by omega)]
    have s2 : runStreamFrom t (r + 2) 2 (r + 2) = ⟨chs.filter (· ≠ []), 3, [4], none⟩ := by
      have e := runStreamFrom_netError_retry t (r + 2) 2 (r + 1) h2 (by omega)
      rw [e, s3]
      norm_num
    have s1 : runStreamFrom t (r + 2) 1 (r + 3) = ⟨chs.filter (· ≠ []), 3, [2, 4], none⟩ := by
      have e := runStreamFrom_netError_retry t (r + 2) 1 (r + 2) h1 (by omega)
      rw [show r + 3 = (r + 2) + 1 from rfl, e, s2]
      norm_num
    exact s1
  · intro t retries st chs hst h1
    rw [runStream, runStreamFrom_response t retries 1 retries st chs h1,
      if_pos hst]

/-- Witness for C2 (amended): a transport failing its first two connection
attempts then returning 200, and one returning 400 at once. -/
theorem tts_stream_retry_policy_witness :
    runStream (fun n => if n ≤ 2 then .netError else .response 200 [[5], [], [6]]) 3 =
      ⟨[[5], [6]], 3, [2, 4], none⟩ ∧
    runStream (fun _ => .response 400 [[7]]) 3 = ⟨[], 1, [], some (.httpStatus 400)⟩ := by
  constructor
  · have e := tts_stream_retry_policy.1
      (fun n => if n ≤ 2 then .netError else .response 200 [[5], [], [6]]) 3 200
      [[5], [], [6]] (by omega) rfl rfl rfl (by omega)
    rw [e]
    decide
  · exact tts_stream_retry_policy.2 (fun _ => .response 400 [[7]]) 3 400 [[7]]
      (by omega) rfl

/-- C1 counterexample: the claim says the NDJSON event-kind sequence always
ends with `done`, but when the synthesis iterator raises (here: the TTS
transport fails every attempt with a retry budget of 0, so the iterator's
`RuntimeError` propagates out of `dialogue_stream`), the emitted events are
exactly `metadata`, `transcript`, `assistant_text` with no `done`. -/
theorem dialogue_stream_event_order_counterexample :
    ¬∃ n, (dialogueStreamEvents ⟨"wav", 44100, none, "audio/wav"⟩ "hello" (some "en")
        ["hello"] "hi" (runStream (fun _ => .netError) 0)).map eventKind =
      ["metadata", "transcript", "assistant_text"] ++
        List.replicate n "audio_chunk" ++ ["done"] := by
  rintro ⟨n, h⟩
  have e : (dialogueStreamEvents ⟨"wav", 44100, none, "audio/wav"⟩ "hello" (some "en")
      ["hello"] "hi" (runStream (fun _ => .netError) 0)).map eventKind =
      ["metadata", "transcript", "assistant_text"] := by decide
  rw [e] at h
  have hl := congrArg List.length h
  simp only [List.length_append, List.length_replicate, List.length_cons,
    List.length_nil] at hl
  omega

/-- Mapping the event kind over the audio-chunk events of a chunk list gives
a constant run of `"audio_chunk"`. -/
theorem map_audioChunk_kind (l : List (List Nat)) :
    l.map (eventKind ∘ fun c => DialogueEvent.audioChunk (b64encode c)) =
      List.replicate l.length "audio_chunk" := by
  induction l with
  | nil => rfl
  | cons c cs ih => simp [ih, List.replicate_succ, eventKind]

/-- C1 (amended): for a streaming dialogue turn whose synthesis iterator
completes without raising, the emitted NDJSON event kinds are exactly
`metadata`, `transcript`, `assistant_text`, zero or more `audio_chunk`,
`done`; if the iterator raises after its yielded chunks, the same prefix is
emitted but the stream terminates without `done` (the exception propagates,
no further event is written). -/
theorem dialogue_stream_event_order (meta : SynthesisStreamMeta) (trText : String)
    (lang : Option String) (segs : List String) (respText : String) (r : StreamRun) :
    (r.failed = none →
      (dialogueStreamEvents meta trText lang segs respText r).map eventKind =
        ["metadata", "transcript", "assistant_text"] ++
          List.replicate (r.emitted.filter (· ≠ [])).length "audio_chunk" ++ ["done"]) ∧
    (∀ e, r.failed = some e →
      (dialogueStreamEvents meta trText lang segs respText r).map eventKind =
        ["metadata", "transcript", "assistant_text"] ++
          List.replicate (r.emitted.filter (· ≠ [])).length "audio_chunk") := by
  constructor
  · intro h
    simp [dialogueStreamEvents, h, eventKind, List.map_append, List.map_map,
      map_audioChunk_kind]
  · intro e h
    simp [dialogueStreamEvents, h, eventKind, List.map_append, List.map_map,
      map_audioChunk_kind]

/-- Witness for C1 (amended) on a concrete successful three-attempt run. -/
theorem dialogue_stream_event_order_witness :
    (dialogueStreamEvents ⟨"wav", 44100, none, "audio/wav"⟩ "hello" (some "en")
        ["hello"] "hi" (runStream (fun _ => .response 200 [[1], [], [2]]) 2)).map
      eventKind =
      ["metadata", "transcript", "assistant_text", "audio_chunk", "audio_chunk",
        "done"] := by
  rw [(dialogue_stream_event_order ⟨"wav", 44100, none, "audio/wav"⟩ "hello" (some "en")
      ["hello"] "hi" (runStream (fun _ => .response 200 [[1], [], [2]]) 2)).1 rfl]
  decide

/-- The base64 alphabet lookup inverts the encoding table. -/
theorem charToSextet_sextetToChar : ∀ s : Nat, s < 64 → charToSextet (sextetToChar s) = some s := by
  decide

/-- No alphabet character is the padding character. -/
theorem sextetToChar_ne_pad : ∀ s : Nat, s < 64 → sextetToChar s ≠ '=' := by
  decide

/-- Round trip: decoding the base64 encoding of a byte string recovers it. -/
theorem b64decode_b64encode : ∀ l : List Nat, (∀ b ∈ l, b < 256) →
    b64decode (b64encode l) = some l
  | [] => fun _ => rfl
  | [b1] => fun h => by
      have hb1 : b1 < 256 := h b1 (by simp)
      have e1 := charToSextet_sextetToChar (b1 / 4) (by omega)
      have e2 := charToSextet_sextetToChar (b1 % 4 * 16) (by omega)
      simp [b64encode, b64decode, e1, e2, Nat.mul_mod_left]
      omega
  | [b1, b2] => fun h => by
      have hb1 : b1 < 256 := h b1 (by simp)
      have hb2 : b2 < 256 := h b2 (by simp)
      have e1 := charToSextet_sextetToChar (b1 / 4) (by omega)
      have e2 := charToSextet_sextetToChar (b1 % 4 * 16 + b2 / 16) (by omega)
      have e3 := charToSextet_sextetToChar (b2 % 16 * 4) (by omega)
      have ne3 := sextetToChar_ne_pad (b2 % 16 * 4) (by omega)
      simp [b64encode, b64decode, ne3, e1, e2, e3, Nat.mul_mod_left,
        (by omega : (b2 % 16 * 4) % 4 = 0)]
      exact ⟨by omega, by omega⟩
  | b1 :: b2 :: b3 :: rest => fun h => by
      have hb1 : b1 < 256 := h b1 (by simp)
      have hb2 : b2 < 256 := h b2 (by simp)
      have hb3 : b3 < 256 := h b3 (by simp)
      have ih := b64decode_b64encode rest (fun b hb => h b (by simp [hb]))
      have e1 := charToSextet_sextetToChar (b1 / 4) (by omega)
      have e2 := charToSextet_sextetToChar (b1 % 4 * 16 + b2 / 16) (by omega)
      have e3 := charToSextet_sextetToChar (b2 % 16 * 4 + b3 / 64) (by omega)
      have e4 := charToSextet_sextetToChar (b3 % 64) (by omega)
      have ne3 := sextetToChar_ne_pad (b2 % 16 * 4 + b3 / 64) (by omega)
      have ne4 := sextetToChar_ne_pad (b3 % 64) (by omega)
      show b64decode (sextetToChar (b1 / 4) :: sextetToChar (b1 % 4 * 16 + b2 / 16) ::
        sextetToChar (b2 % 16 * 4 + b3 / 64) :: sextetToChar (b3 % 64) ::
        b64encode rest) = some (b1 :: b2 :: b3 :: rest)
      simp [b64decode, ne3, ne4, e1, e2, e3, e4, ih]
      refine ⟨by omega, by omega, by omega⟩

/-- Every chunk yielded by the `synthesize_stream` iterator is non-empty:
the `if chunk:` guard drops empty chunks before they are yielded. -/
theorem runStreamFrom_emitted_nonempty (t : Nat → TransportResult) (retries : Nat) :
    ∀ fuel attempt c, c ∈ (runStreamFrom t retries attempt fuel).emitted → c ≠ [] := by
  intro fuel
  induction fuel with
  | zero =>
      intro attempt c hc
      simp [runStreamFrom] at hc
  | succ fuel ih =>
      intro attempt c hc
      simp only [runStreamFrom] at hc
      cases he : t attempt with
      | response status chunks =>
          rw [he] at hc
          by_cases hst : 400 ≤ status
          · simp [hst] at hc
          · simp only [if_neg hst] at hc
            simpa using (List.mem_filter.mp hc).2
      | netError =>
          rw [he] at hc
          by_cases hra : retries < attempt
          · simp [hra] at hc
          · simp only [if_neg hra] at hc
            exact ih (attempt + 1) c hc

/-- C10: every `audio_chunk` event on the NDJSON dialogue stream and every
`audio_chunk` message on the text-to-speech WebSocket carries a base64
payload that decodes to a non-empty byte chunk: empty chunks are dropped by
the TTS iterator (`if chunk: yield chunk`) and again by both emission layers
(`if not chunk: continue`), never encoded or emitted. -/
theorem audio_chunk_events_nonempty (meta : SynthesisStreamMeta) (trText : String)
    (lang : Option String) (segs : List String) (respText : String)
    (t : Nat → TransportResult) (retries : Nat)
    (hbytes : ∀ c ∈ (runStream t retries).emitted, ∀ b ∈ c, b < 256) :
    (∀ c ∈ (runStream t retries).emitted, c ≠ []) ∧
    (∀ s, DialogueEvent.audioChunk s ∈
        dialogueStreamEvents meta trText lang segs respText (runStream t retries) →
      ∃ c, b64decode s = some c ∧ c ≠ [] ∧ c ∈ (runStream t retries).emitted) ∧
    (∀ s, TtsWsMessage.audioChunk s ∈ ttsWsStreamMessages meta (runStream t retries) →
      ∃ c, b64decode s = some c ∧ c ≠ [] ∧ c ∈ (runStream t retries).emitted) := by
  refine ⟨fun c hc => runStreamFrom_emitted_nonempty t retries _ _ c hc, ?_, ?_⟩
  · intro s hs
    rcases hfail : (runStream t retries).failed with _ | e
    all_goals simp only [dialogueStreamEvents, hfail] at hs
    all_goals simp at hs
    all_goals obtain ⟨c, hc, heq⟩ := hs
    all_goals exact ⟨c, by rw [← heq, b64decode_b64encode c (hbytes c hc.1)], hc.2, hc.1⟩
  · intro s hs
    rcases hfail : (runStream t retries).failed with _ | e
    all_goals simp only [ttsWsStreamMessages, hfail] at hs
    all_goals simp at hs
    all_goals obtain ⟨c, hc, heq⟩ := hs
    all_goals exact ⟨c, by rw [← heq, b64decode_b64encode c (hbytes c hc.1)], hc.2, hc.1⟩

/-- Witness for C10 on a concrete stream run that produced an empty and two
non-empty chunks. -/
theorem audio_chunk_events_nonempty_witness :
    (∀ c ∈ (runStream (fun _ => .response 200 [[1], [], [2]]) 0).emitted, c ≠ []) ∧
    (∀ s, DialogueEvent.audioChunk s ∈
        dialogueStreamEvents ⟨"wav", 44100, none, "audio/wav"⟩ "hello" (some "en")
          ["hello"] "hi" (runStream (fun _ => .response 200 [[1], [], [2]]) 0) →
      ∃ c, b64decode s = some c ∧ c ≠ [] ∧
        c ∈ (runStream (fun _ => .response 200 [[1], [], [2]]) 0).emitted) ∧
    (∀ s, TtsWsMessage.audioChunk s ∈ ttsWsStreamMessages
        ⟨"wav", 44100, none, "audio/wav"⟩
        (runStream (fun _ => .response 200 [[1], [], [2]]) 0) →
      ∃ c, b64decode s = some c ∧ c ≠ [] ∧
        c ∈ (runStream (fun _ => .response 200 [[1], [], [2]]) 0).emitted) :=
  audio_chunk_events_nonempty ⟨"wav", 44100, none, "audio/wav"⟩ "hello" (some "en")
    ["hello"] "hi" (fun _ => .response 200 [[1], [], [2]]) 0 (by decide)

/-- Occurrence counting is antitone in the pattern along pattern extension:
a longer pattern can only match at fewer positions. -/
theorem occCount_mono (pat1 pat2 : List Char) (h : pat1 <+: pat2) :
    ∀ s, occCount pat2 s ≤ occCount pat1 s := by
  intro s
  induction s with
  | nil => exact Nat.le_refl 0
  | cons c cs ih =>
      simp only [occCount]
      by_cases h2 : pat2 <+: c :: cs
      · rw [if_pos h2, if_pos (h.trans h2)]
        omega
      · rw [if_neg h2]
        by_cases h1 : pat1 <+: c :: cs
        · rw [if_pos h1]; omega
        · rw [if_neg h1]; omega

/-- A non-empty pattern that is not a substring occurs zero times. -/
theorem occCount_eq_zero_of_not_contains (pat s : List Char)
    (h : ¬ pat <:+: s) : occCount pat s = 0 := by
  induction s with
  | nil => rfl
  | cons c cs ih =>
      have h1 : ¬ pat <+: c :: cs := fun hp => h hp.isInfix
      have h2 : ¬ pat <:+: cs := fun hi => h ( List.infix_cons_iff.mpr (Or.inr hi))
      simp only [occCount, if_neg h1, ih h2, Nat.zero_add]

/-- Non-empty prefixes determine the head. -/
theorem head_eq_of_pre (x y : List Char) (h : x <+: y) (hx : x ≠ []) :
    x.head? = y.head? := by
  obtain ⟨t, rfl⟩ := h
  cases x with
  | nil => exact absurd rfl hx
  | cons c cs => rfl

/-- A prefix of `u ++ b` no longer than `u` is a prefix of `u`. -/
theorem pre_of_pre_append_of_le (pat u b : List Char) (h : pat <+: u ++ b)
    (hl : pat.length ≤ u.length) : pat <+: u := by
  have h' := List.prefix_iff_eq_take.mp h
  exact List.prefix_iff_eq_take.mpr (h'.trans (List.take_append_of_le_length hl))

/-- A prefix of `u ++ b` longer than `u` continues as a prefix of `b`. -/
theorem straddle_tail (pat u b : List Char) (h : pat <+: u ++ b) :
    pat.drop u.length <+: b := by
  have h' := List.prefix_iff_eq_take.mp h
  have e : pat.drop u.length = b.take (pat.length - u.length) := by
    calc pat.drop u.length = ((u ++ b).take pat.length).drop u.length := by rw [← h']
      _ = ((u ++ b).drop u.length).take (pat.length - u.length) := by
            rw [List.drop_take]
      _ = b.take (pat.length - u.length) := by rw [List.drop_left]
  rw [e]
  exact List.take_prefix _ _

/-- If neither `pat` nor `a` is a prefix of the other, `pat` is not a prefix
of any extension of `a`. -/
theorem not_pre_append (pat a b : List Char) (h1 : ¬ pat <+: a) (h2 : ¬ a <+: pat) :
    ¬ pat <+: a ++ b := fun hp =>
  ( List.prefix_or_prefix_of_prefix hp (List.prefix_append a b)).elim h1 h2

/-- If no proper tail of `pat` starts with the head of `z`, occurrences of
`pat` cannot straddle the boundary of `++ z`. -/
theorem no_straddle_of_lt_head (pat : List Char)
    (hpat : ∀ k, k < pat.length → 0 < k → (pat.drop k).head? ≠ some '<')
    (z : List Char) (hz : z.head? = some '<') :
    ∀ k, k < pat.length → 0 < k → ¬ (pat.drop k <+: z) := by
  intro k hk2 hk1 hpre
  have hne : pat.drop k ≠ [] := by
    intro he
    have := congrArg List.length he
    simp only [List.length_drop, List.length_nil] at this
    omega
  exact hpat k hk2 hk1 ((head_eq_of_pre _ _ hpre hne).trans hz)

/-- Splitting occurrence counting over an append when no occurrence can
straddle the boundary. -/
theorem occCount_append_of_no_straddle (pat p z : List Char)
    (h : ∀ k, k < pat.length → 0 < k → ¬ (pat.drop k <+: z)) :
    occCount pat (p ++ z) = occCount pat p + occCount pat z := by
  induction p with
  | nil => simp [occCount]
  | cons c p ih =>
      simp only [List.cons_append, occCount, List.append_eq]
      rw [ih]
      have hiff : (pat <+: c :: (p ++ z)) ↔ (pat <+: c :: p) := by
        constructor
        · intro hp
          rw [← List.cons_append] at hp
          by_cases hl : pat.length ≤ (c :: p).length
          · exact pre_of_pre_append_of_le pat (c :: p) z hp hl
          · exfalso
            push_neg at hl
            exact h (c :: p).length hl (by simp) (straddle_tail pat (c :: p) z hp)
        · intro hp
          have := hp.trans (List.prefix_append (c :: p) z)
          rwa [List.cons_append] at this
      by_cases hp : pat <+: c :: p
      · rw [if_pos (hiff.mpr hp), if_pos hp]
        omega
      · rw [if_neg (fun hq => hp (hiff.mp hq)), if_neg hp]
        omega

/-- One occurrence step on a cons cell whose head cannot start a match. -/
theorem occCount_cons_neg (pat : List Char) (c : Char) (s : List Char)
    (h : ¬ pat <+: c :: s) : occCount pat (c :: s) = occCount pat s := by
  simp [occCount, h]

/-- Skipping a run of characters none of which is `'<'` does not change the
count of a pattern that starts with `'<'`. -/
theorem occCount_append_no_lt (pat : List Char) (hpat : pat.head? = some '<')
    (a : List Char) (ha : ∀ c ∈ a, c ≠ '<') (s : List Char) :
    occCount pat (a ++ s) = occCount pat s := by
  induction a with
  | nil => rfl
  | cons c a ih =>
      have hc : c ≠ '<' := ha c (by simp)
      have hnp : ¬ pat <+: c :: (a ++ s) := by
        intro hp
        have hne : pat ≠ [] := by rintro rfl; simp at hpat
        have := (head_eq_of_pre pat (c :: (a ++ s)) hp hne).symm.trans hpat
        simp only [List.head?_cons, Option.some.injEq] at this
        exact hc this
      simp only [List.cons_append]
      rw [occCount_cons_neg pat c (a ++ s) hnp, ih (fun x hx => ha x (by simp [hx]))]

/-- Counting over a block that begins with `'<'` followed by `'<'`-free
characters: only the block's first position may host a match. -/
theorem occCount_lt_block (pat : List Char) (hpat : pat.head? = some '<')
    (aTail : List Char) (ha : ∀ c ∈ aTail, c ≠ '<') (rest : List Char) :
    occCount pat (('<' :: aTail) ++ rest) =
      (if pat <+: ('<' :: aTail) ++ rest then 1 else 0) + occCount pat rest := by
  simp only [List.cons_append, occCount, List.append_eq]
  rw [occCount_append_no_lt pat hpat aTail ha rest]

/-- The user-turn marker occurs exactly once in the user/model core of the
template, given that it does not occur in the prompt body. -/
theorem occCount_user_core (p : List Char) (hpM : occCount userTurnMarker p = 0) :
    occCount userTurnMarker (userOpenSeg ++ (p ++ (endTurnSeg ++ modelOpenSeg))) = 1 := by
  rw [show userOpenSeg = '<' :: "start_of_turn>user\n".toList from by decide]
  rw [occCount_lt_block userTurnMarker (by decide) _ (by decide) _]
  rw [if_pos ((show userTurnMarker <+: '<' :: "start_of_turn>user\n".toList from
    by decide).trans (List.prefix_append _ _))]
  rw [occCount_append_of_no_straddle userTurnMarker p _
    (no_straddle_of_lt_head _ (by decide) _
      (by rw [show endTurnSeg = '<' :: "end_of_turn>\n".toList from by decide]; rfl))]
  rw [hpM, show occCount userTurnMarker (endTurnSeg ++ modelOpenSeg) = 0 from by decide]

/-- The system-turn marker does not occur in the user/model core of the
template, given that it does not occur in the prompt body. -/
theorem occCount_sys_core (p : List Char) (hpS : occCount systemTurnMarker p = 0) :
    occCount systemTurnMarker (userOpenSeg ++ (p ++ (endTurnSeg ++ modelOpenSeg))) = 0 := by
  rw [show userOpenSeg = '<' :: "start_of_turn>user\n".toList from by decide]
  rw [occCount_lt_block systemTurnMarker (by decide) _ (by decide) _]
  rw [if_neg (not_pre_append _ _ _ (by decide) (by decide))]
  rw [occCount_append_of_no_straddle systemTurnMarker p _
    (no_straddle_of_lt_head _ (by decide) _
      (by rw [show endTurnSeg = '<' :: "end_of_turn>\n".toList from by decide]; rfl))]
  rw [hpS, show occCount systemTurnMarker (endTurnSeg ++ modelOpenSeg) = 0 from by decide]

/-- The user-turn marker occurs exactly once in the full template with a
system part, given that it occurs in neither the system prompt nor the
prompt body. -/
theorem occCount_user_full (s p : List Char) (hsM : occCount userTurnMarker s = 0)
    (hpM : occCount userTurnMarker p = 0) :
    occCount userTurnMarker (sysOpenSeg ++ (s ++ (endTurnSeg ++
      (userOpenSeg ++ (p ++ (endTurnSeg ++ modelOpenSeg)))))) = 1 := by
  rw [show sysOpenSeg = '<' :: "start_of_turn>system\n".toList from by decide]
  rw [occCount_lt_block userTurnMarker (by decide) _ (by decide) _]
  rw [if_neg (not_pre_append _ _ _ (by decide) (by decide))]
  rw [occCount_append_of_no_straddle userTurnMarker s _
    (no_straddle_of_lt_head _ (by decide) _
      (by rw [show endTurnSeg = '<' :: "end_of_turn>\n".toList from by decide]; rfl))]
  rw [hsM]
  rw [show endTurnSeg = '<' :: "end_of_turn>\n".toList from by decide]
  rw [occCount_lt_block userTurnMarker (by decide) _ (by decide) _]
  rw [if_neg (not_pre_append _ _ _ (by decide) (by decide))]
  have e := occCount_user_core p hpM
  rw [show endTurnSeg = '<' :: "end_of_turn>\n".toList from by decide] at e
  rw [e]

/-- The system-turn marker occurs exactly once in the full template with a
system part, given that it occurs in neither the system prompt nor the
prompt body. -/
theorem occCount_sys_full (s p : List Char) (hsS : occCount systemTurnMarker s = 0)
    (hpS : occCount systemTurnMarker p = 0) :
    occCount systemTurnMarker (sysOpenSeg ++ (s ++ (endTurnSeg ++
      (userOpenSeg ++ (p ++ (endTurnSeg ++ modelOpenSeg)))))) = 1 := by
  rw [show sysOpenSeg = '<' :: "start_of_turn>system\n".toList from by decide]
  rw [occCount_lt_block systemTurnMarker (by decide) _ (by decide) _]
  rw [if_pos ((show systemTurnMarker <+: '<' :: "start_of_turn>system\n".toList from
    by decide).trans (List.prefix_append _ _))]
  rw [occCount_append_of_no_straddle systemTurnMarker s _
    (no_straddle_of_lt_head _ (by decide) _
      (by rw [show endTurnSeg = '<' :: "end_of_turn>\n".toList from by decide]; rfl))]
  rw [hsS]
  rw [show endTurnSeg = '<' :: "end_of_turn>\n".toList from by decide]
  rw [occCount_lt_block systemTurnMarker (by decide) _ (by decide) _]
  rw [if_neg (not_pre_append _ _ _ (by decide) (by decide))]
  have e := occCount_sys_core p hpS
  rw [show endTurnSeg = '<' :: "end_of_turn>\n".toList from by decide] at e
  rw [e]

/-- C5 counterexample: the claim adds a system turn exactly when a system
prompt is supplied, but `_apply_chat_template` guards the system part with
Python truthiness (`if system_prompt:`), so a supplied empty system prompt
produces no system turn: at prompt `"Hello"` with system prompt `""` the
template is applied yet the result contains zero system-turn markers. -/
theorem apply_chat_template_markers_counterexample :
    ¬(∀ (p : List Char) (sp : Option (List Char)),
        ¬ startOfTurnMarker <:+: p →
        (∀ s, sp = some s → ¬ startOfTurnMarker <:+: s) →
        sp.isSome = true →
        occCount systemTurnMarker (applyChatTemplate p sp).1 = 1) := by
  intro hclaim
  have h := hclaim "Hello".toList (some []) (by decide)
    (fun s hs => by cases hs; decide) rfl
  exact absurd h (by decide)

/-- C5 (amended): `_apply_chat_template` returns a prompt already containing
the template marker unchanged with `applied = False` (so the user-turn
marker count keeps its existing value); for a prompt that does not contain
the marker (and a system prompt that does not either, when supplied), the
returned prompt is marked applied and contains exactly one
`<start_of_turn>user` marker, plus exactly one `<start_of_turn>system`
marker when a non-empty system prompt is supplied and none otherwise (a
supplied empty system prompt is falsy and adds no system turn). -/
theorem apply_chat_template_markers (p : List Char) (sp : Option (List Char))
    (hsp : ∀ s, sp = some s → ¬ startOfTurnMarker <:+: s) :
    (startOfTurnMarker <:+: p → applyChatTemplate p sp = (p, false)) ∧
    (¬ startOfTurnMarker <:+: p →
      (applyChatTemplate p sp).2 = true ∧
      occCount userTurnMarker (applyChatTemplate p sp).1 = 1 ∧
      occCount systemTurnMarker (applyChatTemplate p sp).1 =
        (match sp with
         | some s => if s = [] then 0 else 1
         | none => 0)) := by
  constructor
  · intro h
    simp [applyChatTemplate, h]
  · intro h
    have hp0 : occCount startOfTurnMarker p = 0 :=
      occCount_eq_zero_of_not_contains _ _ h
    have hpM : occCount userTurnMarker p = 0 := by
      have := occCount_mono startOfTurnMarker userTurnMarker (by decide) p
      omega
    have hpS : occCount systemTurnMarker p = 0 := by
      have := occCount_mono startOfTurnMarker systemTurnMarker (by decide) p
      omega
    cases sp with
    | none =>
        refine ⟨by simp [applyChatTemplate, h], ?_, ?_⟩
        · simp only [applyChatTemplate, if_neg h, List.nil_append, List.append_assoc]
          exact occCount_user_core p hpM
        · simp only [applyChatTemplate, if_neg h, List.nil_append, List.append_assoc]
          exact occCount_sys_core p hpS
    | some s =>
        have hs0 : occCount startOfTurnMarker s = 0 :=
          occCount_eq_zero_of_not_contains _ _ (hsp s rfl)
        have hsM : occCount userTurnMarker s = 0 := by
          have := occCount_mono startOfTurnMarker userTurnMarker (by decide) s
          omega
        have hsS : occCount systemTurnMarker s = 0 := by
          have := occCount_mono startOfTurnMarker systemTurnMarker (by decide) s
          omega
        by_cases hse : s = []
        · subst hse
          have e : (applyChatTemplate p (some [])).1 =
              userOpenSeg ++ p ++ endTurnSeg ++ modelOpenSeg := by
            simp [applyChatTemplate, h]
          refine ⟨by simp [applyChatTemplate, h], ?_, ?_⟩
          · rw [e]
            simp only [List.append_assoc]
            exact occCount_user_core p hpM
          · rw [e]
            simp only [List.append_assoc]
            rw [occCount_sys_core p hpS]
            simp
        · have e : (applyChatTemplate p (some s)).1 =
              (sysOpenSeg ++ s ++ endTurnSeg) ++ userOpenSeg ++ p ++ endTurnSeg ++
                modelOpenSeg := by
            simp [applyChatTemplate, h, hse]
          refine ⟨by simp [applyChatTemplate, h], ?_, ?_⟩
          · rw [e]
            simp only [List.append_assoc]
            exact occCount_user_full s p hsM hpM
          · show occCount systemTurnMarker (applyChatTemplate p (some s)).1 =
              if s = [] then 0 else 1
            rw [e, if_neg hse]
            simp only [List.append_assoc]
            exact occCount_sys_full s p hsS hpS

/-- Witness for C5 (amended): a pre-templated prompt is returned unchanged;
a fresh prompt with a non-empty system prompt gets exactly one user-turn
marker and one system-turn marker; a supplied empty system prompt yields no
system-turn marker. -/
theorem apply_chat_template_markers_witness :
    applyChatTemplate "<start_of_turn>user\nHi<end_of_turn>\n".toList none =
      ("<start_of_turn>user\nHi<end_of_turn>\n".toList, false) ∧
    occCount userTurnMarker
      (applyChatTemplate "Hello there".toList (some "Be brief.".toList)).1 = 1 ∧
    occCount systemTurnMarker
      (applyChatTemplate "Hello there".toList (some "Be brief.".toList)).1 = 1 ∧
    occCount systemTurnMarker
      (applyChatTemplate "Hello there".toList (some "".toList)).1 = 0 := by
  refine ⟨?_, ?_, ?_, ?_⟩
  · exact (apply_chat_template_markers "<start_of_turn>user\nHi<end_of_turn>\n".toList
      none (fun s hs => by cases hs)).1 (by decide)
  · exact ((apply_chat_template_markers "Hello there".toList (some "Be brief.".toList)
      (fun s hs => by cases hs; decide)).2 (by decide)).2.1
  · exact ((apply_chat_template_markers "Hello there".toList (some "Be brief.".toList)
      (fun s hs => by cases hs; decide)).2 (by decide)).2.2
  · exact ((apply_chat_template_markers "Hello there".toList (some "".toList)
      (fun s hs => by cases hs; decide)).2 (by decide)).2.2

end GemmaVoice
